import Mathlib

set_option maxRecDepth 8000

/-!
Shallow embedding of the chromarestserver Razer Chroma protocol core:
`chromarestserver/util.py` (clamp helpers), `chromarestserver/effect.py`
(report encoding and the USB transport round trip), `chromarestserver/model.py`
(RGB colors, device discovery, effect catalog) and the error dispatch of
`chromarestserver/resource.py` (KeyboardResource.on_post).

Python integers are modelled as `Int`; Python lists as `List Int`; Python
exceptions as `Except PyExc`.  Bitwise operators use Mathlib's two's-complement
`Int.land` / `Int.xor` and the `>>>` shift, which agree with Python's `&`,
`^` and `>>` on all integers.
-/

/-! ### util.py -/

-- util.py: clamp(n, smallest, largest) = max(smallest, min(n, largest))
def clamp (n smallest largest : Int) : Int :=
  max smallest (min n largest)

-- util.py: clamp255(n) = clamp(n, 0, 255)
def clamp255 (n : Int) : Int :=
  clamp n 0 255

/-! ### effect.py: constants and the Effect class -/

-- effect.py: REPORT_ID = 0x00
def REPORT_ID : Int := 0x00

-- effect.py: Effect.REPORT_LEN = 90
def REPORT_LEN : Nat := 90

/-- Python exceptions raised (or caught) along the effect dispatch path. -/
inductive PyExc where
  /-- IOError('Unable to write to USB device') -/
  | ioError
  /-- ValueError('Invalid request: ...') -/
  | valueErrorInvalidRequest
  /-- ValueError('Invalid response: ...') -/
  | valueErrorInvalidResponse
  /-- RuntimeError('No Razer device found') -/
  | runtimeError
deriving DecidableEq

/-- The data of `effect.py`'s `Effect` class.  The `device` attribute (an
opaque `hid.device` handle) and the logger are omitted; the device is passed
to `Effect.run` explicitly instead. -/
structure Effect where
  command : Int
  subcommand : Int
  tx_id : Int
  args : List Int
deriving DecidableEq, Inhabited

/-- Model of `Effect.__init__`: every integer field is clamped into `[0, 255]`,
and every argument is clamped individually.  There is no length check. -/
def Effect.init (command subcommand : Int) (tx_id : Int := 0x3F)
    (args : List Int := []) : Effect :=
  { command := clamp255 command
    subcommand := clamp255 subcommand
    tx_id := clamp255 tx_id
    args := args.map clamp255 }

/-- Python slice assignment `l[a:b] = xs` (for `0 ≤ a`, `0 ≤ b`):
the result is `l[:a] + xs + l[max a b:]` with indices clipped to `len(l)`. -/
def pySliceAssign (l : List Int) (a b : Nat) (xs : List Int) : List Int :=
  l.take a ++ xs ++ l.drop (max a b)

/-- Python slice read `l[a:b]` (for `0 ≤ a ≤ b`). -/
def pySlice (l : List Int) (a b : Nat) : List Int :=
  (l.take b).drop a

/-- Model of `functools.reduce(int.__xor__, l)`.  Python raises on an empty list; in
`to_feature_report` the folded slice `command_bytes[2:88]` always has 86
elements, so the `[]` case (modelled as `0`) is never reached. -/
def reduceXor : List Int → Int
  | [] => 0
  | x :: xs => xs.foldl Int.xor x

/-- Model of `Effect.to_feature_report`: zero-fill a 90-byte buffer, place the
direction marker, reserved bytes, argument count, command, subcommand and
arguments, then store the XOR of `command_bytes[2:88]` at
`command_bytes[-2]`. -/
def Effect.to_feature_report (e : Effect) : List Int :=
  let arg_count := e.args.length
  let cb0 := List.replicate REPORT_LEN (0 : Int)
  let cb1 := cb0.set 0 0x00
  let cb2 := pySliceAssign cb1 2 5 [0x00, 0x00, 0x00]
  let cb3 := cb2.set 5 (arg_count : Int)
  let cb4 := cb3.set 6 e.command
  let cb5 := cb4.set 7 e.subcommand
  let cb6 := pySliceAssign cb5 8 (8 + arg_count) e.args
  let crc := reduceXor (pySlice cb6 2 88)
  cb6.set (cb6.length - 2) crc

/-- The USB device handle as seen by `Effect.run`: the two HID feature-report
primitives actually used.  `send_feature_report` returns the written byte
count or the failure sentinel `-1`; `get_feature_report` takes the report id
and a length. -/
structure Device where
  send_feature_report : List Int → Int
  get_feature_report : Int → Int → List Int

/-- Model of `Effect.run`: one write/read round trip.
`usleep_range(900, 1000)` between write and read affects timing only and is
not modelled.  A response status byte `response[-1] != 2` is only logged
(`self.logger.error`), never raised. -/
def Effect.run (e : Effect) (dev : Device) : Except PyExc Unit :=
  let request := e.to_feature_report
  let written := dev.send_feature_report (REPORT_ID :: request)
  if written = -1 then
    .error .ioError
  else if written ≠ (request.length : Int) + 1 then
    .error .valueErrorInvalidRequest
  else
    let response := dev.get_feature_report REPORT_ID written
    if request.take 90 ≠ response.take 90 then
      .error .valueErrorInvalidResponse
    else
      .ok ()

/-! ### effect.py: effect builder functions (the ones the claims use) -/

-- effect.py: set_custom_frame(dev, row, col_start=0, col_end=21, rgbs=None)
def set_custom_frame (row : Int) (col_start : Int := 0) (col_end : Int := 21)
    (rgbs : List Int := []) : Effect :=
  Effect.init 0x03 0x0B 0x3F
    ([0xFF, clamp row 0 6, clamp col_start 0 21, clamp col_end 0 21] ++ rgbs)

-- effect.py: matrix_effect_custom_frame(dev, variable_storage)
def matrix_effect_custom_frame (variable_storage : Int) : Effect :=
  Effect.init 0x03 0x0A 0x3F [0x05, variable_storage]

-- effect.py: matrix_effect_static(dev, r=0, g=0, b=0)
def matrix_effect_static (r g b : Int) : Effect :=
  Effect.init 0x03 0x0A 0x3F [0x06, clamp255 r, clamp255 g, clamp255 b]

/-! ### model.py: RGB / Color -/

/-- The `RGB` class of `model.py` (`Color` subclasses it without changing the
channel data). -/
structure RGB where
  r : Int
  g : Int
  b : Int
deriving DecidableEq

/-- Model of `RGB.from_long_bgr(x)`: `r = x & 255`, `g = (x >> 8) & 255`,
`b = (x >> 16) & 255`. -/
def RGB.from_long_bgr (x : Int) : RGB :=
  { r := Int.land x 255
    g := Int.land (x >>> (8 : Int)) 255
    b := Int.land (x >>> (16 : Int)) 255 }

/-- Model of `RGB.to_rgb()`: the list `[r, g, b]`. -/
def RGB.to_rgb (c : RGB) : List Int :=
  [c.r, c.g, c.b]

/-- Python `int(bool)`. -/
def pyInt (b : Bool) : Int :=
  if b then 1 else 0

/-! ### model.py: USBModel device discovery -/

-- model.py: USBModel.RAZER_VENDOR_ID = 0x1532
def RAZER_VENDOR_ID : Int := 0x1532

/-- One entry of `hid.enumerate()`: the two fields the selection loop reads. -/
structure DeviceInfo where
  vendor_id : Int
  product_id : Int
deriving DecidableEq

/-- The handle produced by `hid.device(); device.open(vendor_id, product_id)`. -/
structure HidHandle where
  vendor_id : Int
  product_id : Int
deriving DecidableEq

/-- The enumeration loop of the `USBModel.device` property: scan the
enumeration list in order and open the first entry whose vendor id is
`RAZER_VENDOR_ID` and whose product id satisfies `is_product_supported`. -/
def findDevice (sup : Int → Bool) : List DeviceInfo → Option HidHandle
  | [] => none
  | info :: rest =>
    if info.vendor_id == RAZER_VENDOR_ID && sup info.product_id then
      some ⟨info.vendor_id, info.product_id⟩
    else
      findDevice sup rest

/-- Observable outcome of one access to the `USBModel.device` property:
the returned handle or raised exception, the cached `self._device`
afterwards, and whether `hid.enumerate()` was called. -/
structure AcquireOutcome where
  result : Except PyExc HidHandle
  cached : Option HidHandle
  enumerated : Bool

/-- The `USBModel.device` property getter.  `sup` is the subclass's
`is_product_supported`, `enum` the current `hid.enumerate()` listing, and the
`Option HidHandle` argument the cached `self._device`.  Raises
`RuntimeError('No Razer device found')` when the scan finds nothing, leaving
the cache empty. -/
def USBModel.device (sup : Int → Bool) (enum : List DeviceInfo) :
    Option HidHandle → AcquireOutcome
  | some d => ⟨.ok d, some d, false⟩
  | none =>
    match findDevice sup enum with
    | some h => ⟨.ok h, some h, true⟩
    | none => ⟨.error .runtimeError, none, true⟩

/-- The `USBModel.device` property setter used as `self.usb.device = None`:
invalidates the cached handle. -/
def USBModel.invalidate : Option HidHandle → Option HidHandle :=
  fun _ => none

/-! ### model.py: KeyboardModel -/

/-- The `RAZER_*` product-id class attributes of `KeyboardModel`
(`vars(KeyboardModel)` sees only this class's own attributes). -/
def keyboardProductIds : List Int :=
  [0x010D, 0x010F, 0x0111, 0x0113, 0x0207, 0x011A, 0x011B, 0x010E,
   0x0201, 0x0202, 0x0203, 0x0204, 0x0205, 0x0208, 0x0209, 0x020F,
   0x0210, 0x0211, 0x0214, 0x0216, 0x0217, 0x021A, 0x021E, 0x021F,
   0x0220, 0x0221, 0x0224, 0x022D, 0x0225, 0x022F, 0x0232]

/-- Model of `KeyboardModel.is_product_supported(product_id)`: membership in the
static `RAZER_*` whitelist. -/
def KeyboardModel.is_product_supported (product_id : Int) : Bool :=
  keyboardProductIds.contains product_id

/-! ### model.py: USBModel effect catalog (the operations the claims use) -/

/-- The loop body of `USBModel.set_custom_frame`: for row number `idx` with
contents `row`, call `set_custom_frame(self.device, idx, 0, len(row),
rgbs=[x for color in row for x in color.to_rgb()])`. -/
def customFrameRowCommand (idx : Nat) (row : List RGB) : Effect :=
  set_custom_frame (idx : Int) 0 (row.length : Int) (row.flatMap RGB.to_rgb)

/-- Model of `USBModel.set_custom_frame(matrix, store=True, force_custom_effect=True)`,
modelled as the ordered transcript of `Effect`s it runs: the optional
declare command, then one `set_custom_frame` row command per matrix row. -/
def USBModel.set_custom_frame (matrix : List (List RGB)) (store : Bool := true)
    (force_custom_effect : Bool := true) : List Effect :=
  (if force_custom_effect then [matrix_effect_custom_frame (pyInt store)] else [])
    ++ matrix.enum.map fun p => customFrameRowCommand p.1 p.2

/-- Model of `USBModel.set_matrix_static(color)`: destructure
`r, g, b = color.to_rgb()` and run the single `matrix_effect_static`
command. -/
def USBModel.set_matrix_static (c : RGB) : Effect :=
  matrix_effect_static c.r c.g c.b

/-! ### resource.py: KeyboardResource.on_post error dispatch -/

/-- The `try/except` dispatch wrapped around each effect item inside
`KeyboardResource.on_post`: a completed usb call yields `result = 0`;
`except IOError` yields `result = 1167`; `except RuntimeError` yields
`result = 4319`.  No other exception type is caught, so a `ValueError`
raised by `Effect.run` propagates out of the handler. -/
def keyboard_effect_result (outcome : Except PyExc Unit) : Except PyExc Nat :=
  match outcome with
  | .ok _ => .ok 0
  | .error .ioError => .ok 1167
  | .error .runtimeError => .ok 4319
  | .error e => .error e

/-! ### Proof-layer helper definitions -/

/-- The report buffer of an `Effect` with at most 82 arguments, before the
checksum is stored: fixed 8-byte header, the arguments, zero padding. -/
def preReport (e : Effect) : List Int :=
  [0, 0, 0, 0, 0, (e.args.length : Int), e.command, e.subcommand]
    ++ e.args ++ List.replicate (82 - e.args.length) 0

/-- XOR fold on naturals, mirroring `reduceXor` on the nonnegative lists that
actually occur in reports. -/
def natReduceXor : List Nat → Nat
  | [] => 0
  | x :: xs => xs.foldl Nat.xor x

/-- The report buffer of an `Effect` with more than 82 arguments, before the
checksum is stored: the fixed 8-byte header followed by all arguments
(the zero padding has been consumed by the slice assignment). -/
def preReportBig (e : Effect) : List Int :=
  [0, 0, 0, 0, 0, (e.args.length : Int), e.command, e.subcommand] ++ e.args

/-! ## Helper lemmas -/

theorem clamp255_nonneg (x : Int) : 0 ≤ clamp255 x :=
  le_max_left 0 _

theorem clamp255_le (x : Int) : clamp255 x ≤ 255 :=
  max_le (by norm_num) (min_le_right _ _)

theorem clamp255_eq_self {x : Int} (h0 : 0 ≤ x) (h255 : x ≤ 255) :
    clamp255 x = x := by
  unfold clamp255 clamp
  rw [min_eq_left h255, max_eq_right h0]

theorem clamp_nonneg_of (n l : Int) : 0 ≤ clamp n 0 l :=
  le_max_left 0 _

theorem clamp_le_of (n l : Int) (hl : 0 ≤ l) : clamp n 0 l ≤ l :=
  max_le hl (min_le_right _ _)

theorem map_clamp255_eq_self {l : List Int}
    (h : ∀ x ∈ l, 0 ≤ x ∧ x ≤ 255) : l.map clamp255 = l := by
  induction l with
  | nil => rfl
  | cons x xs ih =>
    have hx := h x (List.mem_cons_self x xs)
    simp only [List.map_cons, clamp255_eq_self hx.1 hx.2,
      ih fun y hy => h y (List.mem_cons_of_mem x hy)]

theorem take_set_of_le {α : Type} (l : List α) (i m : Nat) (v : α)
    (h : m ≤ i) : (l.set i v).take m = l.take m := by
  induction l generalizing i m with
  | nil => simp
  | cons x xs ih =>
    cases i with
    | zero =>
      interval_cases m
      simp
    | succ i =>
      cases m with
      | zero => simp
      | succ m =>
        simp only [List.set_cons_succ, List.take_succ_cons]
        rw [ih i m (Nat.le_of_succ_le_succ h)]

theorem take_set_of_lt {α : Type} (l : List α) (i m : Nat) (v : α)
    (h : i < m) : (l.set i v).take m = (l.take m).set i v := by
  induction l generalizing i m with
  | nil => simp
  | cons x xs ih =>
    cases i with
    | zero =>
      cases m with
      | zero => exact absurd h (by omega)
      | succ m => simp
    | succ i =>
      cases m with
      | zero => exact absurd h (by omega)
      | succ m =>
        simp only [List.set_cons_succ, List.take_succ_cons]
        rw [ih i m (Nat.lt_of_succ_lt_succ h)]

theorem drop_set_of_lt {α : Type} (l : List α) (i m : Nat) (v : α)
    (h : i < m) : (l.set i v).drop m = l.drop m := by
  induction l generalizing i m with
  | nil => simp
  | cons x xs ih =>
    cases i with
    | zero =>
      cases m with
      | zero => exact absurd h (by omega)
      | succ m => simp
    | succ i =>
      cases m with
      | zero => exact absurd h (by omega)
      | succ m =>
        simp only [List.set_cons_succ, List.drop_succ_cons]
        exact ih i m (Nat.lt_of_succ_lt_succ h)

theorem drop_set_of_le {α : Type} (l : List α) (i m : Nat) (v : α)
    (h : m ≤ i) : (l.set i v).drop m = (l.drop m).set (i - m) v := by
  induction l generalizing i m with
  | nil => simp
  | cons x xs ih =>
    cases m with
    | zero => simp
    | succ m =>
      cases i with
      | zero => exact absurd h (by omega)
      | succ i =>
        simp only [List.set_cons_succ, List.drop_succ_cons, Nat.succ_sub_succ]
        exact ih i m (Nat.le_of_succ_le_succ h)

theorem foldl_int_xor_map_ofNat (l : List Nat) (a : Nat) :
    List.foldl Int.xor (Int.ofNat a) (l.map Int.ofNat)
      = Int.ofNat (List.foldl Nat.xor a l) := by
  induction l generalizing a with
  | nil => rfl
  | cons x xs ih =>
    simp only [List.map_cons, List.foldl_cons]
    exact ih (Nat.xor a x)

theorem reduceXor_map_ofNat (l : List Nat) :
    reduceXor (l.map Int.ofNat) = Int.ofNat (natReduceXor l) := by
  cases l with
  | nil => rfl
  | cons x xs => exact foldl_int_xor_map_ofNat xs x

theorem nxor_assoc (a b c : Nat) :
    Nat.xor (Nat.xor a b) c = Nat.xor a (Nat.xor b c) :=
  Nat.xor_assoc a b c

theorem nxor_comm (a b : Nat) : Nat.xor a b = Nat.xor b a :=
  Nat.xor_comm a b

theorem nxor_self (a : Nat) : Nat.xor a a = 0 :=
  Nat.xor_self a

theorem nxor_zero (a : Nat) : Nat.xor a 0 = a :=
  Nat.xor_zero a

theorem zero_nxor (a : Nat) : Nat.xor 0 a = a :=
  Nat.zero_xor a

theorem foldl_nat_xor_eq (a : Nat) (l : List Nat) :
    l.foldl Nat.xor a = Nat.xor a (l.foldr Nat.xor 0) := by
  induction l generalizing a with
  | nil => exact (nxor_zero a).symm
  | cons x xs ih =>
    simp only [List.foldl_cons, List.foldr_cons, ih (Nat.xor a x)]
    rw [nxor_assoc]

theorem natReduceXor_eq_foldr (l : List Nat) :
    natReduceXor l = l.foldr Nat.xor 0 := by
  cases l with
  | nil => rfl
  | cons x xs =>
    show xs.foldl Nat.xor x = _
    rw [foldl_nat_xor_eq, List.foldr_cons]

theorem foldr_nat_xor_set (l : List Nat) (i : Nat) (hi : i < l.length)
    (m : Nat) :
    (l.set i (Nat.xor (l.get ⟨i, hi⟩) m)).foldr Nat.xor 0
      = Nat.xor (l.foldr Nat.xor 0) m := by
  induction l generalizing i with
  | nil => exact absurd hi (by simp)
  | cons x xs ih =>
    cases i with
    | zero =>
      simp only [List.get, List.set_cons_zero, List.foldr_cons]
      rw [nxor_assoc, nxor_comm m, ← nxor_assoc]
    | succ i =>
      simp only [List.get, List.set_cons_succ, List.foldr_cons]
      rw [ih i (Nat.lt_of_succ_lt_succ hi), ← nxor_assoc]

theorem nat_xor_flip_ne (x m : Nat) (hm : m ≠ 0) : Nat.xor x m ≠ x := by
  intro h
  apply hm
  calc m = Nat.xor 0 m := (zero_nxor m).symm
    _ = Nat.xor (Nat.xor x x) m := by rw [nxor_self]
    _ = Nat.xor x (Nat.xor x m) := nxor_assoc x x m
    _ = Nat.xor x x := by rw [h]
    _ = 0 := nxor_self x

theorem eq_map_ofNat_of_nonneg (l : List Int) (h : ∀ x ∈ l, 0 ≤ x) :
    l = (l.map Int.toNat).map Int.ofNat := by
  induction l with
  | nil => rfl
  | cons x xs ih =>
    simp only [List.map_cons, List.cons.injEq]
    refine ⟨?_, ih fun y hy => h y (List.mem_cons_of_mem x hy)⟩
    exact (Int.toNat_of_nonneg (h x (List.mem_cons_self x xs))).symm

theorem to_feature_report_eq_of_le (e : Effect) (h : e.args.length ≤ 82) :
    e.to_feature_report
      = (preReport e).set 88 (reduceXor (pySlice (preReport e) 2 88)) := by
  have key : e.to_feature_report
      = (pySliceAssign
          ([0, 0, 0, 0, 0, (e.args.length : Int), e.command, e.subcommand]
            ++ List.replicate 82 0) 8 (8 + e.args.length) e.args).set
          ((pySliceAssign
            ([0, 0, 0, 0, 0, (e.args.length : Int), e.command, e.subcommand]
              ++ List.replicate 82 0) 8 (8 + e.args.length) e.args).length - 2)
          (reduceXor (pySlice (pySliceAssign
            ([0, 0, 0, 0, 0, (e.args.length : Int), e.command, e.subcommand]
              ++ List.replicate 82 0) 8 (8 + e.args.length) e.args) 2 88)) := rfl
  have hassign : pySliceAssign
      ([0, 0, 0, 0, 0, (e.args.length : Int), e.command, e.subcommand]
        ++ List.replicate 82 0) 8 (8 + e.args.length) e.args = preReport e := by
    unfold pySliceAssign preReport
    rw [Nat.max_eq_right (Nat.le_add_right 8 e.args.length)]
    rw [← List.drop_drop]
    show ([0, 0, 0, 0, 0, (e.args.length : Int), e.command, e.subcommand]
        ++ List.replicate 82 0).take 8 ++ e.args
        ++ List.drop e.args.length (List.replicate 82 0) = _
    rw [List.drop_replicate]
    rfl
  have hlen : (preReport e).length = 90 := by
    unfold preReport
    simp only [List.length_append, List.length_replicate, List.length_cons,
      List.length_nil]
    omega
  rw [key, hassign, hlen]

theorem to_feature_report_eq_of_gt (e : Effect) (h : 82 < e.args.length) :
    e.to_feature_report
      = (preReportBig e).set (6 + e.args.length)
          (reduceXor (pySlice (preReportBig e) 2 88)) := by
  have key : e.to_feature_report
      = (pySliceAssign
          ([0, 0, 0, 0, 0, (e.args.length : Int), e.command, e.subcommand]
            ++ List.replicate 82 0) 8 (8 + e.args.length) e.args).set
          ((pySliceAssign
            ([0, 0, 0, 0, 0, (e.args.length : Int), e.command, e.subcommand]
              ++ List.replicate 82 0) 8 (8 + e.args.length) e.args).length - 2)
          (reduceXor (pySlice (pySliceAssign
            ([0, 0, 0, 0, 0, (e.args.length : Int), e.command, e.subcommand]
              ++ List.replicate 82 0) 8 (8 + e.args.length) e.args) 2 88)) := rfl
  have hassign : pySliceAssign
      ([0, 0, 0, 0, 0, (e.args.length : Int), e.command, e.subcommand]
        ++ List.replicate 82 0) 8 (8 + e.args.length) e.args = preReportBig e := by
    unfold pySliceAssign preReportBig
    rw [Nat.max_eq_right (Nat.le_add_right 8 e.args.length)]
    rw [← List.drop_drop]
    show ([0, 0, 0, 0, 0, (e.args.length : Int), e.command, e.subcommand]
        ++ List.replicate 82 0).take 8 ++ e.args
        ++ List.drop e.args.length (List.replicate 82 0) = _
    rw [List.drop_replicate, Nat.sub_eq_zero_of_le (Nat.le_of_lt h),
      List.replicate_zero, List.append_nil]
    rfl
  have hlen : (preReportBig e).length = 8 + e.args.length := by
    unfold preReportBig
    simp only [List.length_append, List.length_cons, List.length_nil]
  rw [key, hassign, hlen]
  have hidx : 8 + e.args.length - 2 = 6 + e.args.length := by omega
  rw [hidx]

theorem int_xor_ofNat (a b : Nat) :
    Int.xor (Int.ofNat a) (Int.ofNat b) = Int.ofNat (Nat.xor a b) := rfl

theorem two_pow_ofNat (k : Nat) : ((2:Int) ^ k) = Int.ofNat (2 ^ k) := by
  show (2:Int)^k = ((2^k : Nat) : Int)
  exact_mod_cast rfl

theorem natReduceXor_set_flip (L : List Nat) (i : Nat) (hi : i < L.length)
    (m : Nat) (hm : m ≠ 0) :
    natReduceXor (L.set i (Nat.xor (L.get ⟨i, hi⟩) m)) ≠ natReduceXor L := by
  rw [natReduceXor_eq_foldr, natReduceXor_eq_foldr, foldr_nat_xor_set L i hi m]
  exact nat_xor_flip_ne _ m hm

theorem reduceXor_set_flip (l : List Int) (hnn : ∀ x ∈ l, 0 ≤ x) (i : Nat)
    (hi : i < l.length) (k : Nat) :
    reduceXor (l.set i (Int.xor l[i]! ((2:Int) ^ k))) ≠ reduceXor l := by
  obtain ⟨L, rfl⟩ : ∃ L : List Nat, l = L.map Int.ofNat :=
    ⟨l.map Int.toNat, eq_map_ofNat_of_nonneg l hnn⟩
  have hiL : i < L.length := by simpa using hi
  have hget : (L.map Int.ofNat)[i]! = Int.ofNat (L.get ⟨i, hiL⟩) := by
    rw [getElem!_pos (L.map Int.ofNat) i hi, List.getElem_map, List.get_eq_getElem]
  rw [hget, two_pow_ofNat, int_xor_ofNat, ← List.map_set,
    reduceXor_map_ofNat, reduceXor_map_ofNat]
  intro hcontra
  exact natReduceXor_set_flip L i hiL (2 ^ k) (Nat.two_pow_pos k).ne'
    (Int.ofNat_inj.mp hcontra)

theorem preReport_length (e : Effect) (h : e.args.length ≤ 82) :
    (preReport e).length = 90 := by
  unfold preReport
  simp only [List.length_append, List.length_replicate, List.length_cons,
    List.length_nil]
  omega

theorem report_length_of_le (e : Effect) (h : e.args.length ≤ 82) :
    e.to_feature_report.length = 90 := by
  rw [to_feature_report_eq_of_le e h, List.length_set]
  exact preReport_length e h

theorem init_args_length (command subcommand tx_id : Int) (args : List Int) :
    (Effect.init command subcommand tx_id args).args.length = args.length := by
  simp [Effect.init]

theorem preReport_init_nonneg (command subcommand tx_id : Int)
    (args : List Int) :
    ∀ x ∈ preReport (Effect.init command subcommand tx_id args), 0 ≤ x := by
  intro x hx
  unfold preReport Effect.init at hx
  simp only [List.mem_append, List.mem_cons, List.mem_map, List.mem_replicate,
    List.not_mem_nil, or_false] at hx
  rcases hx with ((rfl | rfl | rfl | rfl | rfl | rfl | rfl | rfl) | ⟨y, hy, rfl⟩) | ⟨hn, rfl⟩
  all_goals first
    | exact le_refl 0
    | exact Int.natCast_nonneg _
    | exact clamp255_nonneg _

theorem report_slice_stable (e : Effect) (h : e.args.length ≤ 82) :
    pySlice e.to_feature_report 2 88 = pySlice (preReport e) 2 88 := by
  rw [to_feature_report_eq_of_le e h]
  unfold pySlice
  rw [take_set_of_le _ 88 88 _ (le_refl 88)]

/-- C2: for every command with at most 82 arguments, byte 88 of the encoded
feature report equals the XOR fold of the report's bytes 2 through 87
(`command_bytes[2:88]`), and flipping any single bit of any byte in that
range and recomputing the fold yields a different checksum value. -/
theorem report_checksum_xor (command subcommand tx_id : Int) (args : List Int)
    (h : args.length ≤ 82) (r : List Int)
    (hr : r = (Effect.init command subcommand tx_id args).to_feature_report) :
    r[88]! = reduceXor (pySlice r 2 88)
    ∧ ∀ i : Nat, 2 ≤ i → i ≤ 87 → ∀ k : Nat, k < 8 →
        reduceXor (pySlice (r.set i (Int.xor r[i]! ((2:Int) ^ k))) 2 88)
          ≠ reduceXor (pySlice r 2 88) := by
  subst hr
  have hel : (Effect.init command subcommand tx_id args).args.length ≤ 82 := by
    rw [init_args_length]; exact h
  have hrlen : (Effect.init command subcommand tx_id args).to_feature_report.length = 90 :=
    report_length_of_le _ hel
  have hstable := report_slice_stable (Effect.init command subcommand tx_id args) hel
  have hnn : ∀ x ∈ pySlice (Effect.init command subcommand tx_id args).to_feature_report 2 88, 0 ≤ x := by
    rw [hstable]
    intro x hx
    exact preReport_init_nonneg command subcommand tx_id args x
      (List.mem_of_mem_take (List.mem_of_mem_drop hx))
  have hslen : (pySlice (Effect.init command subcommand tx_id args).to_feature_report 2 88).length = 86 := by
    unfold pySlice
    rw [List.length_drop, List.length_take, hrlen]
    omega
  constructor
  · conv_lhs => rw [to_feature_report_eq_of_le _ hel]
    rw [getElem!_pos ((preReport (Effect.init command subcommand tx_id args)).set 88
        (reduceXor (pySlice (preReport (Effect.init command subcommand tx_id args)) 2 88))) 88
      (by rw [List.length_set, preReport_length _ hel]; omega)]
    rw [List.getElem_set_self, hstable]
  · intro i h2 h87 k hk
    have hset : pySlice ((Effect.init command subcommand tx_id args).to_feature_report.set i
        (Int.xor ((Effect.init command subcommand tx_id args).to_feature_report)[i]! ((2:Int) ^ k))) 2 88
        = (pySlice (Effect.init command subcommand tx_id args).to_feature_report 2 88).set (i - 2)
          (Int.xor ((Effect.init command subcommand tx_id args).to_feature_report)[i]! ((2:Int) ^ k)) := by
      unfold pySlice
      rw [take_set_of_lt _ i 88 _ (by omega), drop_set_of_le _ i 2 _ h2]
    have hgeti : ((Effect.init command subcommand tx_id args).to_feature_report)[i]!
        = (pySlice (Effect.init command subcommand tx_id args).to_feature_report 2 88)[i - 2]! := by
      rw [getElem!_pos ((Effect.init command subcommand tx_id args).to_feature_report) i (by omega),
        getElem!_pos (pySlice (Effect.init command subcommand tx_id args).to_feature_report 2 88) (i - 2)
          (by rw [hslen]; omega)]
      unfold pySlice
      rw [List.getElem_drop, List.getElem_take]
      congr 1
      omega
    rw [hset, hgeti]
    exact reduceXor_set_flip _ hnn (i - 2) (by rw [hslen]; omega) k

theorem to_feature_report_eq_of_le80 (e : Effect) (h : e.args.length ≤ 80) :
    e.to_feature_report
      = ([0, 0, 0, 0, 0, (e.args.length : Int), e.command, e.subcommand]
          ++ e.args)
        ++ (List.replicate (80 - e.args.length) 0
          ++ [reduceXor (pySlice (preReport e) 2 88), 0]) := by
  rw [to_feature_report_eq_of_le e (by omega)]
  unfold preReport
  have hsplit : (82 - e.args.length) = (80 - e.args.length) + 2 := by omega
  rw [hsplit, List.replicate_add]
  have hlen1 : ([0, 0, 0, 0, 0, (e.args.length : Int), e.command,
      e.subcommand] ++ e.args).length = 8 + e.args.length := by
    simp only [List.length_append, List.length_cons, List.length_nil]
  rw [List.set_append, hlen1, if_neg (by omega)]
  rw [List.set_append, List.length_replicate, if_neg (by omega)]
  rw [show 88 - (8 + e.args.length) - (80 - e.args.length) = 0 from by omega]
  rfl

theorem drop_succ_len_append_pair {α : Type} (P : List α) (x y : α) :
    List.drop (P.length + 1) (P ++ [x, y]) = [y] := by
  rw [List.drop_append_eq_append_drop, List.drop_eq_nil_of_le (by omega)]
  rw [show P.length + 1 - P.length = 1 from by omega]
  rfl

theorem report_take8 (e : Effect) (h : e.args.length ≤ 80) :
    e.to_feature_report.take 8
      = [0, 0, 0, 0, 0, (e.args.length : Int), e.command, e.subcommand] := by
  rw [to_feature_report_eq_of_le80 e h]
  rfl

theorem report_args_slice (e : Effect) (h : e.args.length ≤ 80) :
    pySlice e.to_feature_report 8 (8 + e.args.length) = e.args := by
  rw [to_feature_report_eq_of_le80 e h]
  unfold pySlice
  have hA : ([0, 0, 0, 0, 0, (e.args.length : Int), e.command, e.subcommand]
      ++ e.args).length = 8 + e.args.length := by
    simp only [List.length_append, List.length_cons, List.length_nil]
  rw [← hA, List.take_left]
  rfl

theorem report_last_byte (e : Effect) (h : e.args.length ≤ 80) :
    pySlice e.to_feature_report 89 90 = [0] := by
  rw [to_feature_report_eq_of_le80 e h]
  set crc := reduceXor (pySlice (preReport e) 2 88) with hcrc
  unfold pySlice
  set A := [0, 0, 0, 0, 0, (e.args.length : Int), e.command, e.subcommand]
    ++ e.args with hAdef
  set R := List.replicate (80 - e.args.length) (0:Int) with hRdef
  have hAlen : A.length = 8 + e.args.length := by
    rw [hAdef]
    simp only [List.length_append, List.length_cons, List.length_nil]
  have hRlen : R.length = 80 - e.args.length := by
    rw [hRdef, List.length_replicate]
  have htot : (A ++ (R ++ [crc, 0])).length = 90 := by
    simp only [List.length_append, hAlen, hRlen, List.length_cons,
      List.length_nil]
    omega
  rw [List.take_of_length_le (le_of_eq htot)]
  rw [← List.append_assoc]
  have hP : (A ++ R).length = 88 := by
    rw [List.length_append, hAlen, hRlen]
    omega
  rw [show (89:Nat) = (A ++ R).length + 1 from by rw [hP]]
  exact drop_succ_len_append_pair (A ++ R) crc 0

/-- C1 (amended): for every command, subcommand, transaction id and argument
sequence of length at most 80 (element values possibly outside [0, 255]),
`Effect.to_feature_report` returns exactly 90 bytes whose first 8 bytes are
the 0x00 direction marker, a zero, three zero reserved bytes, the argument
count, and the clamped command and subcommand bytes; bytes 8 onward are the
arguments each clamped to [0, 255]; and byte 89 is zero.  (The original
claim's bound of 82 fails: at length 81-82 the checksum write at offset 88
overwrites argument 80, and at length 82 byte 89 is argument 81.) -/
theorem report_layout_short_args (command subcommand tx_id : Int)
    (args : List Int) (h : args.length ≤ 80) (r : List Int)
    (hr : r = (Effect.init command subcommand tx_id args).to_feature_report) :
    r.length = 90
    ∧ r.take 8 = [0, 0, 0, 0, 0, (args.length : Int), clamp255 command,
        clamp255 subcommand]
    ∧ pySlice r 8 (8 + args.length) = args.map clamp255
    ∧ pySlice r 89 90 = [0] := by
  subst hr
  have hel : (Effect.init command subcommand tx_id args).args.length
      = args.length := init_args_length command subcommand tx_id args
  refine ⟨?_, ?_, ?_, ?_⟩
  · exact report_length_of_le _ (by rw [hel]; omega)
  · rw [report_take8 _ (by rw [hel]; omega), hel]
    rfl
  · rw [show 8 + args.length
        = 8 + (Effect.init command subcommand tx_id args).args.length from by
      rw [hel]]
    rw [report_args_slice _ (by rw [hel]; omega)]
    rfl
  · exact report_last_byte _ (by rw [hel]; omega)

/-- C1 counterexample: an 82-argument command (all arguments 1) satisfies the
claim's length bound, yet byte 89 of its feature report is 1, not the
claimed zero - argument 81 lands on the final byte. -/
theorem report_byte89_counterexample :
    (List.replicate 82 (1:Int)).length ≤ 82
    ∧ ((Effect.init 0 0 0x3F (List.replicate 82 1)).to_feature_report)[89]!
      = 1 := by decide

/-- C10: for every argument list longer than 82, construction succeeds and
`Effect.to_feature_report` returns a list of length 8 + len(args), strictly
longer than 90, with the checksum written at the second-to-last index (which
is not offset 88) and still computed as the XOR fold of bytes 2..87 only. -/
theorem oversized_args_report (command subcommand tx_id : Int)
    (args : List Int) (h : 82 < args.length) (r : List Int)
    (hr : r = (Effect.init command subcommand tx_id args).to_feature_report) :
    r.length = 8 + args.length
    ∧ 90 < r.length
    ∧ r.length - 2 ≠ 88
    ∧ r[r.length - 2]! = reduceXor (pySlice r 2 88) := by
  subst hr
  have hel : (Effect.init command subcommand tx_id args).args.length
      = args.length := init_args_length command subcommand tx_id args
  have hcf := to_feature_report_eq_of_gt
    (Effect.init command subcommand tx_id args) (by rw [hel]; omega)
  rw [hel] at hcf
  have hBlen : (preReportBig (Effect.init command subcommand tx_id args)).length
      = 8 + args.length := by
    unfold preReportBig
    simp only [List.length_append, List.length_cons, List.length_nil, hel]
  have hrlen : (Effect.init command subcommand tx_id args).to_feature_report.length
      = 8 + args.length := by
    rw [hcf, List.length_set, hBlen]
  refine ⟨hrlen, by omega, by omega, ?_⟩
  rw [hrlen, show 8 + args.length - 2 = 6 + args.length from by omega]
  rw [hcf]
  rw [getElem!_pos ((preReportBig (Effect.init command subcommand tx_id args)).set
      (6 + args.length)
      (reduceXor (pySlice (preReportBig (Effect.init command subcommand tx_id args)) 2 88)))
    (6 + args.length) (by rw [List.length_set, hBlen]; omega)]
  rw [List.getElem_set_self]
  unfold pySlice
  rw [take_set_of_le _ (6 + args.length) 88 _ (by omega)]

theorem report_cast_length (command subcommand tx_id : Int) (args : List Int)
    (h : args.length ≤ 82) :
    ((Effect.init command subcommand tx_id args).to_feature_report.length : Int)
      + 1 = 91 := by
  rw [report_length_of_le _ (by rw [init_args_length]; exact h)]
  norm_num

/-- C3: for every command with at most 82 arguments run against a device:
a send_feature_report result of -1 raises the write-failed IOError; any
other byte count different from the expected 91 raises the invalid-request
ValueError; a successful write whose response's first 90 bytes differ from
the first 90 bytes sent raises the echo-mismatch ValueError; and a device
that echoes its input exactly and returns the success status byte 2 makes
the round trip return without error. -/
theorem run_round_trip_outcomes (command subcommand tx_id : Int)
    (args : List Int) (h : args.length ≤ 82) (dev : Device) (e : Effect)
    (he : e = Effect.init command subcommand tx_id args)
    (request : List Int) (hreq : request = e.to_feature_report)
    (written : Int)
    (hw : written = dev.send_feature_report (REPORT_ID :: request)) :
    (written = -1 → e.run dev = .error .ioError)
    ∧ (written ≠ -1 → written ≠ 91 →
        e.run dev = .error .valueErrorInvalidRequest)
    ∧ (written = 91 →
        request.take 90 ≠ (dev.get_feature_report REPORT_ID 91).take 90 →
        e.run dev = .error .valueErrorInvalidResponse)
    ∧ (written = 91 →
        request.take 90 = (dev.get_feature_report REPORT_ID 91).take 90 →
        (dev.get_feature_report REPORT_ID 91).getLast! = 2 →
        e.run dev = .ok ()) := by
  subst he
  subst hreq
  subst hw
  have hlen := report_cast_length command subcommand tx_id args h
  refine ⟨?_, ?_, ?_, ?_⟩
  · intro h1
    simp only [Effect.run]
    rw [if_pos h1]
  · intro h1 h2
    simp only [Effect.run]
    rw [if_neg h1, hlen, if_pos h2]
  · intro h1 h2
    simp only [Effect.run]
    rw [if_neg (show ¬_ from by rw [h1]; decide), hlen,
      if_neg (not_not_intro h1), h1, if_pos h2]
  · intro h1 h2 _
    simp only [Effect.run]
    rw [if_neg (show ¬_ from by rw [h1]; decide), hlen,
      if_neg (not_not_intro h1), h1, if_neg (fun hn => hn h2)]

/-- C4: whenever the write succeeds (91 bytes) and the response echoes the
request in its first 90 bytes, `Effect.run` returns without error no matter
what the final status byte of the response is - a non-success status is
only logged, never propagated. -/
theorem run_status_byte_leniency (command subcommand tx_id : Int)
    (args : List Int) (h : args.length ≤ 82) (dev : Device) (e : Effect)
    (he : e = Effect.init command subcommand tx_id args)
    (request : List Int) (hreq : request = e.to_feature_report)
    (hw : dev.send_feature_report (REPORT_ID :: request) = 91)
    (hecho : (dev.get_feature_report REPORT_ID 91).take 90
      = request.take 90) :
    e.run dev = .ok () := by
  subst he
  subst hreq
  have hlen := report_cast_length command subcommand tx_id args h
  simp only [Effect.run]
  rw [if_neg (show ¬_ from by rw [hw]; decide), hlen,
    if_neg (not_not_intro hw), hw, if_neg (fun hn => hn hecho.symm)]

/-- C9 (amended): the `KeyboardResource.on_post` try/except dispatch maps a
completed usb call to result 0, a raised IOError to result 1167, and a
raised RuntimeError (no device found) to result 4319; but a ValueError -
the exception `Effect.run` raises on an echo mismatch or an invalid write
count - is not caught and escapes the handler instead of being rendered as
one of the three result codes. -/
theorem on_post_result_codes (e : Effect) (dev : Device) :
    (e.run dev = .ok () → keyboard_effect_result (e.run dev) = .ok 0)
    ∧ (e.run dev = .error .ioError →
        keyboard_effect_result (e.run dev) = .ok 1167)
    ∧ keyboard_effect_result (.error .runtimeError) = .ok 4319
    ∧ (e.run dev = .error .valueErrorInvalidResponse →
        keyboard_effect_result (e.run dev) = .error .valueErrorInvalidResponse)
    ∧ (e.run dev = .error .valueErrorInvalidRequest →
        keyboard_effect_result (e.run dev) = .error .valueErrorInvalidRequest) := by
  refine ⟨?_, ?_, rfl, ?_, ?_⟩
  all_goals intro h1
  all_goals rw [h1]
  all_goals rfl

/-- C9 counterexample: with a device that accepts the write but echoes a
corrupted response, the handler's outcome is the uncaught echo-mismatch
ValueError - not one of the claimed result codes 0, 1167 or 4319. -/
theorem on_post_echo_mismatch_escapes :
    keyboard_effect_result ((Effect.init 3 0x0A 0x3F [0]).run
        ⟨fun _ => 91, fun _ _ => List.replicate 91 0⟩)
      = .error .valueErrorInvalidResponse
    ∧ keyboard_effect_result ((Effect.init 3 0x0A 0x3F [0]).run
        ⟨fun _ => 91, fun _ _ => List.replicate 91 0⟩) ≠ .ok 0
    ∧ keyboard_effect_result ((Effect.init 3 0x0A 0x3F [0]).run
        ⟨fun _ => 91, fun _ _ => List.replicate 91 0⟩) ≠ .ok 1167
    ∧ keyboard_effect_result ((Effect.init 3 0x0A 0x3F [0]).run
        ⟨fun _ => 91, fun _ _ => List.replicate 91 0⟩) ≠ .ok 4319 := by
  have hmain : keyboard_effect_result ((Effect.init 3 0x0A 0x3F [0]).run
      ⟨fun _ => 91, fun _ _ => List.replicate 91 0⟩)
      = .error .valueErrorInvalidResponse := rfl
  refine ⟨hmain, ?_, ?_, ?_⟩
  all_goals intro hcontra
  all_goals rw [hmain] at hcontra
  all_goals exact Except.noConfusion hcontra

/-- Witness for C3: the four transport outcomes on four concrete fake
devices: a failed write, a short write, a corrupted echo, and an exact echo
with success status. -/
theorem run_round_trip_outcomes_witness :
    (Effect.init 3 10 0x3F [6, 0, 255, 0]).run
        ⟨fun _ => -1, fun _ _ => []⟩ = .error .ioError
    ∧ (Effect.init 3 10 0x3F [6, 0, 255, 0]).run
        ⟨fun _ => 5, fun _ _ => []⟩ = .error .valueErrorInvalidRequest
    ∧ (Effect.init 3 10 0x3F [6, 0, 255, 0]).run
        ⟨fun _ => 91, fun _ _ => List.replicate 91 0⟩
      = .error .valueErrorInvalidResponse
    ∧ (Effect.init 3 10 0x3F [6, 0, 255, 0]).run
        ⟨fun _ => 91, fun _ _ =>
          (Effect.init 3 10 0x3F [6, 0, 255, 0]).to_feature_report ++ [2]⟩
      = .ok () := by
  refine ⟨?_, ?_, ?_, ?_⟩
  · exact (run_round_trip_outcomes 3 10 0x3F [6, 0, 255, 0] (by decide)
      ⟨fun _ => -1, fun _ _ => []⟩ _ rfl _ rfl _ rfl).1 rfl
  · exact (run_round_trip_outcomes 3 10 0x3F [6, 0, 255, 0] (by decide)
      ⟨fun _ => 5, fun _ _ => []⟩ _ rfl _ rfl _ rfl).2.1 (by decide) (by decide)
  · exact (run_round_trip_outcomes 3 10 0x3F [6, 0, 255, 0] (by decide)
      ⟨fun _ => 91, fun _ _ => List.replicate 91 0⟩ _ rfl _ rfl _ rfl).2.2.1
      rfl (by decide)
  · exact (run_round_trip_outcomes 3 10 0x3F [6, 0, 255, 0] (by decide)
      ⟨fun _ => 91, fun _ _ =>
        (Effect.init 3 10 0x3F [6, 0, 255, 0]).to_feature_report ++ [2]⟩
      _ rfl _ rfl _ rfl).2.2.2 rfl (by decide) (by decide)

/-- Witness for C4: a device that echoes exactly but reports the busy status
byte 1 still makes the round trip return without error. -/
theorem run_status_byte_leniency_witness :
    (Effect.init 3 10 0x3F [6, 0, 255, 0]).run
        ⟨fun _ => 91, fun _ _ =>
          (Effect.init 3 10 0x3F [6, 0, 255, 0]).to_feature_report ++ [1]⟩
      = .ok () :=
  run_status_byte_leniency 3 10 0x3F [6, 0, 255, 0] (by decide)
    ⟨fun _ => 91, fun _ _ =>
      (Effect.init 3 10 0x3F [6, 0, 255, 0]).to_feature_report ++ [1]⟩
    _ rfl _ rfl rfl (by decide)

/-- Witness for C9's amended claim: a failed write (sentinel -1) is rendered
as the device-disconnected result code 1167. -/
theorem on_post_result_codes_witness :
    keyboard_effect_result ((Effect.init 3 0x0A 0x3F [0]).run
        ⟨fun _ => -1, fun _ _ => []⟩) = .ok 1167 :=
  (on_post_result_codes (Effect.init 3 0x0A 0x3F [0])
    ⟨fun _ => -1, fun _ _ => []⟩).2.1 rfl

theorem clamp255_clamp_id (x l : Int) (h0 : 0 ≤ l) (h255 : l ≤ 255) :
    clamp255 (clamp x 0 l) = clamp x 0 l :=
  clamp255_eq_self (clamp_nonneg_of x l) (le_trans (clamp_le_of x l h0) h255)

theorem length_flatMap_to_rgb (row : List RGB) :
    (row.flatMap RGB.to_rgb).length = 3 * row.length := by
  induction row with
  | nil => rfl
  | cons c cs ih =>
    rw [List.flatMap_cons, List.length_append, ih, List.length_cons]
    show 3 + 3 * cs.length = 3 * (cs.length + 1)
    ring

theorem set_custom_frame_cons (matrix : List (List RGB)) :
    USBModel.set_custom_frame matrix true true
      = matrix_effect_custom_frame 1
        :: matrix.enum.map fun p => customFrameRowCommand p.1 p.2 := rfl

/-- C5: for every matrix of at most 6 rows of at most 22 in-range colors,
`USBModel.set_custom_frame` with its defaults issues exactly one declare
command (command 0x03, matrix-effect subcommand 0x0A, args [0x05, 1])
followed by exactly one row command per matrix row in increasing row order,
each with command 0x03, subcommand 0x0B, and an argument list of exactly 4
header bytes (marker 0xFF, the row index clamped to [0, 6], column start 0,
column end) followed by exactly 3*n flattened R,G,B color bytes. -/
theorem custom_frame_call_sequence (matrix : List (List RGB))
    (_hm : matrix.length ≤ 6)
    (_hn : ∀ row ∈ matrix, row.length ≤ 22)
    (hc : ∀ row ∈ matrix, ∀ c ∈ row,
      0 ≤ c.r ∧ c.r ≤ 255 ∧ 0 ≤ c.g ∧ c.g ≤ 255 ∧ 0 ≤ c.b ∧ c.b ≤ 255)
    (cmds : List Effect)
    (hcmds : cmds = USBModel.set_custom_frame matrix true true) :
    cmds.length = 1 + matrix.length
    ∧ (cmds[0]!).command = 0x03
    ∧ (cmds[0]!).subcommand = 0x0A
    ∧ (cmds[0]!).args = [0x05, 1]
    ∧ ∀ i, (hi : i < matrix.length) →
        (cmds[i + 1]!).command = 0x03
        ∧ (cmds[i + 1]!).subcommand = 0x0B
        ∧ (cmds[i + 1]!).args.length = 4 + 3 * (matrix.get ⟨i, hi⟩).length
        ∧ (cmds[i + 1]!).args
          = [0xFF, clamp (i : Int) 0 6, 0,
              clamp ((matrix.get ⟨i, hi⟩).length : Int) 0 21]
            ++ (matrix.get ⟨i, hi⟩).flatMap RGB.to_rgb := by
  subst hcmds
  rw [set_custom_frame_cons]
  have hrows : (matrix.enum.map fun p => customFrameRowCommand p.1 p.2).length
      = matrix.length := by
    rw [List.length_map, List.enum_length]
  have hgot0 : (matrix_effect_custom_frame 1
      :: matrix.enum.map fun p => customFrameRowCommand p.1 p.2)[0]!
      = matrix_effect_custom_frame 1 := by
    rw [getElem!_pos (matrix_effect_custom_frame 1
        :: matrix.enum.map fun p => customFrameRowCommand p.1 p.2) 0
      (by simp), List.getElem_cons_zero]
  refine ⟨?_, by rw [hgot0]; decide, by rw [hgot0]; decide,
    by rw [hgot0]; decide, ?_⟩
  · rw [List.length_cons, hrows]
    omega
  · intro i hi
    have hgot : (matrix_effect_custom_frame 1
        :: matrix.enum.map fun p => customFrameRowCommand p.1 p.2)[i + 1]!
        = customFrameRowCommand i (matrix.get ⟨i, hi⟩) := by
      rw [getElem!_pos (matrix_effect_custom_frame 1
          :: matrix.enum.map fun p => customFrameRowCommand p.1 p.2) (i + 1)
        (by rw [List.length_cons, hrows]; omega)]
      rw [List.getElem_cons_succ, List.getElem_map, List.getElem_enum,
        List.get_eq_getElem]
    rw [hgot]
    have hrgb : ∀ x ∈ (matrix.get ⟨i, hi⟩).flatMap RGB.to_rgb,
        0 ≤ x ∧ x ≤ 255 := by
      intro x hx
      rw [List.mem_flatMap] at hx
      obtain ⟨c, hcrow, hxc⟩ := hx
      have hb := hc (matrix.get ⟨i, hi⟩) (List.get_mem matrix i hi) c hcrow
      have hxc' : x = c.r ∨ x = c.g ∨ x = c.b := by
        simpa [RGB.to_rgb] using hxc
      rcases hxc' with rfl | rfl | rfl
      · exact ⟨hb.1, hb.2.1⟩
      · exact ⟨hb.2.2.1, hb.2.2.2.1⟩
      · exact ⟨hb.2.2.2.2.1, hb.2.2.2.2.2⟩
    have hargs : (customFrameRowCommand i (matrix.get ⟨i, hi⟩)).args
        = [0xFF, clamp (i : Int) 0 6, 0,
            clamp ((matrix.get ⟨i, hi⟩).length : Int) 0 21]
          ++ (matrix.get ⟨i, hi⟩).flatMap RGB.to_rgb := by
      show (([0xFF, clamp (i : Int) 0 6, clamp 0 0 21,
          clamp ((matrix.get ⟨i, hi⟩).length : Int) 0 21]
            ++ (matrix.get ⟨i, hi⟩).flatMap RGB.to_rgb).map clamp255) = _
      rw [List.map_append]
      congr 1
      · show [clamp255 0xFF, clamp255 (clamp (i : Int) 0 6),
            clamp255 (clamp 0 0 21),
            clamp255 (clamp ((matrix.get ⟨i, hi⟩).length : Int) 0 21)] = _
        rw [clamp255_clamp_id (i : Int) 6 (by norm_num) (by norm_num),
          clamp255_clamp_id (((matrix.get ⟨i, hi⟩).length : Nat) : Int) 21
            (by norm_num) (by norm_num)]
        rfl
      · exact map_clamp255_eq_self hrgb
    refine ⟨rfl, rfl, ?_, hargs⟩
    rw [hargs, List.length_append, length_flatMap_to_rgb]
    norm_num

theorem findDevice_cond_iff (sup : Int → Bool) (info : DeviceInfo) :
    ((info.vendor_id == RAZER_VENDOR_ID && sup info.product_id) = true)
      ↔ (info.vendor_id = RAZER_VENDOR_ID ∧ sup info.product_id = true) := by
  simp [Bool.and_eq_true, beq_iff_eq]

theorem findDevice_eq_none_of (sup : Int → Bool) (l : List DeviceInfo)
    (h : ∀ info ∈ l,
      ¬(info.vendor_id = RAZER_VENDOR_ID ∧ sup info.product_id = true)) :
    findDevice sup l = none := by
  induction l with
  | nil => rfl
  | cons info rest ih =>
    unfold findDevice
    rw [if_neg fun hb => h info (List.mem_cons_self info rest)
      ((findDevice_cond_iff sup info).mp hb)]
    exact ih fun x hx => h x (List.mem_cons_of_mem info hx)

theorem findDevice_eq_first_match (sup : Int → Bool) (l : List DeviceInfo)
    (i : Nat) (hi : i < l.length)
    (hmatch : (l.get ⟨i, hi⟩).vendor_id = RAZER_VENDOR_ID
      ∧ sup (l.get ⟨i, hi⟩).product_id = true)
    (hbefore : ∀ j, (hj : j < l.length) → j < i →
      ¬((l.get ⟨j, hj⟩).vendor_id = RAZER_VENDOR_ID
        ∧ sup (l.get ⟨j, hj⟩).product_id = true)) :
    findDevice sup l
      = some ⟨(l.get ⟨i, hi⟩).vendor_id, (l.get ⟨i, hi⟩).product_id⟩ := by
  induction l generalizing i with
  | nil => exact absurd hi (by simp)
  | cons info rest ih =>
    cases i with
    | zero =>
      unfold findDevice
      rw [if_pos ((findDevice_cond_iff sup info).mpr hmatch)]
      rfl
    | succ i =>
      unfold findDevice
      rw [if_neg fun hb => hbefore 0 (by simp) (Nat.succ_pos i)
        ((findDevice_cond_iff sup info).mp hb)]
      exact ih i (Nat.lt_of_succ_lt_succ hi) hmatch
        fun j hj hji => hbefore (j + 1) (by simpa using Nat.succ_lt_succ hj)
          (Nat.succ_lt_succ hji)

/-- C6: one access to the `USBModel.device` property returns the cached
handle without re-enumerating when one is cached; otherwise it enumerates,
and either opens and caches the first entry in enumeration order whose
vendor id is 0x1532 and whose product id passes `is_product_supported`
(ignoring all earlier non-matching entries), or - when no entry matches -
raises the not-found RuntimeError and caches nothing; and after
invalidation the next access enumerates again. -/
theorem device_acquisition_cache (sup : Int → Bool)
    (enum : List DeviceInfo) :
    (∀ hdl : HidHandle,
        (USBModel.device sup enum (some hdl)).result = .ok hdl
        ∧ (USBModel.device sup enum (some hdl)).cached = some hdl
        ∧ (USBModel.device sup enum (some hdl)).enumerated = false)
    ∧ ((∀ info ∈ enum,
          ¬(info.vendor_id = RAZER_VENDOR_ID ∧ sup info.product_id = true)) →
        (USBModel.device sup enum none).result = .error .runtimeError
        ∧ (USBModel.device sup enum none).cached = none
        ∧ (USBModel.device sup enum none).enumerated = true)
    ∧ (∀ i, (hi : i < enum.length) →
        ((enum.get ⟨i, hi⟩).vendor_id = RAZER_VENDOR_ID
          ∧ sup (enum.get ⟨i, hi⟩).product_id = true) →
        (∀ j, (hj : j < enum.length) → j < i →
          ¬((enum.get ⟨j, hj⟩).vendor_id = RAZER_VENDOR_ID
            ∧ sup (enum.get ⟨j, hj⟩).product_id = true)) →
        (USBModel.device sup enum none).result
          = .ok ⟨(enum.get ⟨i, hi⟩).vendor_id, (enum.get ⟨i, hi⟩).product_id⟩
        ∧ (USBModel.device sup enum none).cached
          = some ⟨(enum.get ⟨i, hi⟩).vendor_id,
              (enum.get ⟨i, hi⟩).product_id⟩
        ∧ (USBModel.device sup enum none).enumerated = true)
    ∧ (∀ cached : Option HidHandle,
        (USBModel.device sup enum (USBModel.invalidate cached)).enumerated
          = true) := by
  refine ⟨fun hdl => ⟨rfl, rfl, rfl⟩, ?_, ?_, ?_⟩
  · intro hno
    have hfd := findDevice_eq_none_of sup enum hno
    refine ⟨?_, ?_, ?_⟩
    all_goals simp [USBModel.device, hfd]
  · intro i hi hmatch hbefore
    have hfd := findDevice_eq_first_match sup enum i hi hmatch hbefore
    refine ⟨?_, ?_, ?_⟩
    all_goals simp [USBModel.device, hfd]
  · intro cached
    show (USBModel.device sup enum none).enumerated = true
    cases hfd : findDevice sup enum
    all_goals simp [USBModel.device, hfd]

/-- C7 counterexample: `Color.from_long_bgr(0x0000FF).to_rgb()` evaluates to
[255, 0, 0] - red is 0xFF and blue is 0 - contradicting the claim that the
triple has blue = 0xFF and red = green = 0. -/
theorem from_long_bgr_low_byte_counterexample :
    (RGB.from_long_bgr 0x0000FF).to_rgb = [255, 0, 0]
    ∧ ¬((RGB.from_long_bgr 0x0000FF).b = 0xFF
        ∧ (RGB.from_long_bgr 0x0000FF).r = 0
        ∧ (RGB.from_long_bgr 0x0000FF).g = 0) := by decide

/-- C7 (amended): in the BGR-ordered 24-bit integer 0x0000FF the low byte is
the red channel, so `Color.from_long_bgr(0x0000FF).to_rgb()` yields a triple
with red = 0xFF and green = blue = 0. -/
theorem from_long_bgr_red_in_low_byte :
    (RGB.from_long_bgr 0x0000FF).to_rgb = [0xFF, 0, 0]
    ∧ (RGB.from_long_bgr 0x0000FF).r = 0xFF
    ∧ (RGB.from_long_bgr 0x0000FF).g = 0
    ∧ (RGB.from_long_bgr 0x0000FF).b = 0 := by decide

/-- C8: for the static-color request with BGR parameter 0x00FF00 (green), the
catalog builds exactly one command with the matrix/LED control command byte
0x03, the matrix-effect subcommand 0x0A, and argument list
[0x06, 0, 255, 0] - the mode byte followed by R, G, B in RGB order. -/
theorem static_green_single_command :
    USBModel.set_matrix_static (RGB.from_long_bgr 0x00FF00)
      = { command := 0x03, subcommand := 0x0A, tx_id := 0x3F,
          args := [0x06, 0, 255, 0] } := by decide

/-- Witness for C1's amended claim at the concrete static-color command. -/
theorem report_layout_short_args_witness :
    ((Effect.init 3 10 0x3F [6, 0, 255, 0]).to_feature_report).length = 90
    ∧ ((Effect.init 3 10 0x3F [6, 0, 255, 0]).to_feature_report).take 8
      = [0, 0, 0, 0, 0, (([6, 0, 255, 0] : List Int).length : Int),
          clamp255 3, clamp255 10]
    ∧ pySlice ((Effect.init 3 10 0x3F [6, 0, 255, 0]).to_feature_report) 8
        (8 + ([6, 0, 255, 0] : List Int).length)
      = ([6, 0, 255, 0] : List Int).map clamp255
    ∧ pySlice ((Effect.init 3 10 0x3F [6, 0, 255, 0]).to_feature_report) 89 90
      = [0] :=
  report_layout_short_args 3 10 0x3F [6, 0, 255, 0] (by decide) _ rfl

/-- Witness for C2 at the concrete static-color command, flipping bit 0 of
byte 8. -/
theorem report_checksum_xor_witness :
    ((Effect.init 3 10 0x3F [6, 0, 255, 0]).to_feature_report)[88]!
      = reduceXor (pySlice
          ((Effect.init 3 10 0x3F [6, 0, 255, 0]).to_feature_report) 2 88)
    ∧ reduceXor (pySlice
        (((Effect.init 3 10 0x3F [6, 0, 255, 0]).to_feature_report).set 8
          (Int.xor
            ((Effect.init 3 10 0x3F [6, 0, 255, 0]).to_feature_report)[8]!
            ((2 : Int) ^ 0))) 2 88)
      ≠ reduceXor (pySlice
          ((Effect.init 3 10 0x3F [6, 0, 255, 0]).to_feature_report) 2 88) :=
  ⟨(report_checksum_xor 3 10 0x3F [6, 0, 255, 0] (by decide) _ rfl).1,
   (report_checksum_xor 3 10 0x3F [6, 0, 255, 0] (by decide) _ rfl).2
     8 (by decide) (by decide) 0 (by decide)⟩

/-- Witness for C10 at a concrete 83-argument command. -/
theorem oversized_args_report_witness :
    ((Effect.init 5 9 0x3F (List.replicate 83 7)).to_feature_report).length
      = 8 + (List.replicate 83 (7 : Int)).length
    ∧ 90 < ((Effect.init 5 9 0x3F
        (List.replicate 83 7)).to_feature_report).length
    ∧ ((Effect.init 5 9 0x3F
        (List.replicate 83 7)).to_feature_report).length - 2 ≠ 88
    ∧ ((Effect.init 5 9 0x3F (List.replicate 83 7)).to_feature_report)[
        ((Effect.init 5 9 0x3F
          (List.replicate 83 7)).to_feature_report).length - 2]!
      = reduceXor (pySlice
          ((Effect.init 5 9 0x3F (List.replicate 83 7)).to_feature_report)
          2 88) :=
  oversized_args_report 5 9 0x3F (List.replicate 83 7) (by decide) _ rfl

/-- Witness for C5: a 2 x 3 grid yields 1 declare call plus 2 row calls, the
second row call carrying 4 header bytes plus 9 color bytes. -/
theorem custom_frame_call_sequence_witness :
    (USBModel.set_custom_frame
        [[⟨1, 2, 3⟩, ⟨4, 5, 6⟩, ⟨7, 8, 9⟩],
         [⟨10, 11, 12⟩, ⟨13, 14, 15⟩, ⟨16, 17, 18⟩]] true true).length = 3
    ∧ ((USBModel.set_custom_frame
        [[⟨1, 2, 3⟩, ⟨4, 5, 6⟩, ⟨7, 8, 9⟩],
         [⟨10, 11, 12⟩, ⟨13, 14, 15⟩, ⟨16, 17, 18⟩]] true true)[2]!).args.length
      = 13 := by
  have h := custom_frame_call_sequence
    [[⟨1, 2, 3⟩, ⟨4, 5, 6⟩, ⟨7, 8, 9⟩],
     [⟨10, 11, 12⟩, ⟨13, 14, 15⟩, ⟨16, 17, 18⟩]]
    (by decide) (by decide) (by decide) _ rfl
  exact ⟨h.1, (h.2.2.2.2 1 (by decide)).2.2.1⟩

/-- Witness for C6: enumeration skips a wrong-vendor entry and an
unsupported-product entry, opens the first matching keyboard, and fails
with the not-found error on an empty enumeration. -/
theorem device_acquisition_cache_witness :
    (USBModel.device KeyboardModel.is_product_supported
        [⟨0x9999, 0x0203⟩, ⟨0x1532, 0x9999⟩, ⟨0x1532, 0x0203⟩] none).result
      = .ok ⟨0x1532, 0x0203⟩
    ∧ (USBModel.device KeyboardModel.is_product_supported
        [⟨0x9999, 0x0203⟩, ⟨0x1532, 0x9999⟩, ⟨0x1532, 0x0203⟩] none).cached
      = some ⟨0x1532, 0x0203⟩
    ∧ (USBModel.device KeyboardModel.is_product_supported
        [⟨0x9999, 0x0203⟩, ⟨0x1532, 0x9999⟩, ⟨0x1532, 0x0203⟩] none).enumerated
      = true
    ∧ (USBModel.device KeyboardModel.is_product_supported [] none).result
      = .error .runtimeError := by
  refine ⟨?_, ?_, ?_, ?_⟩
  · exact ((device_acquisition_cache KeyboardModel.is_product_supported
      [⟨0x9999, 0x0203⟩, ⟨0x1532, 0x9999⟩, ⟨0x1532, 0x0203⟩]).2.2.1 2
      (by decide) (by decide) (by decide)).1
  · exact ((device_acquisition_cache KeyboardModel.is_product_supported
      [⟨0x9999, 0x0203⟩, ⟨0x1532, 0x9999⟩, ⟨0x1532, 0x0203⟩]).2.2.1 2
      (by decide) (by decide) (by decide)).2.1
  · exact ((device_acquisition_cache KeyboardModel.is_product_supported
      [⟨0x9999, 0x0203⟩, ⟨0x1532, 0x9999⟩, ⟨0x1532, 0x0203⟩]).2.2.1 2
      (by decide) (by decide) (by decide)).2.2
  · exact ((device_acquisition_cache KeyboardModel.is_product_supported
      []).2.1 (by decide)).1
